import Mathlib

/-!
Verification of the Toxic Comment Classification API (`src/app.py`).

The service has two components:

* a classifier adapter (`classify_comment`): the external BERT model produces one
  logit per fixed label, `torch.sigmoid` turns each into a probability, and every
  label whose probability reaches the threshold (default 0.5) is selected; an
  empty selection is replaced by the sentinel `["none"]`;
* a feedback store backed by a single SQLite table with an auto-incrementing
  `id`, a `comment`, six 0/1 label columns and a `timestamp`, supporting insert
  (`submit_feedback`), count (`get_feedback_stats`) and paginated listing
  (`view_feedback`).

The embedding below is a direct translation of `app.py`: the table is a list of
rows in rowid (insertion) order together with the next `AUTOINCREMENT` value;
fallible operations return `Except`; the external collaborators (the model call
and the possibility of a SQLite I/O failure) are passed in as parameters.
Python floats are modelled as rationals where the code computes (thresholding,
comparisons) and as reals where the mathematical function `sigmoid` matters.
-/

/-- The fixed label list `LABELS` of `app.py` (line 30), in source order. -/
def LABELS : List String :=
  ["toxic", "severe_toxic", "obscene", "threat", "insult", "identity_hate"]

/-- The name of the `i`-th fixed label (the order of `LABELS`). -/
def labelName (i : Fin 6) : String :=
  LABELS.get (Fin.cast (by decide) i)

/-- Result shape of `classify_comment`: the selected `labels` and the
`probabilities` dict, modelled as an association list in the dict's insertion
order (Python dicts preserve insertion order). -/
structure ClassificationResult (α : Type) where
  labels : List String
  probabilities : List (String × α)
deriving Repr, DecidableEq

/-- `classify_comment` (app.py lines 114-146), given the six per-label
probabilities produced by the model: `predictions` pairs each label of `LABELS`
with its probability; `predicted_labels` keeps the labels whose probability is
`>= threshold`; an empty selection is replaced by `["none"]`
(`predicted_labels or ['none']`). Generic over a linear order so that it can be
used both with rational and with real probabilities. -/
def classify_comment {α : Type} [LinearOrder α] (probs : Fin 6 → α) (threshold : α) :
    ClassificationResult α :=
  let predictions : List (String × α) := LABELS.zip (List.ofFn probs)
  let predicted_labels : List String :=
    (predictions.filter (fun p => decide (threshold ≤ p.2))).map Prod.fst
  { labels := if predicted_labels.isEmpty then ["none"] else predicted_labels
    probabilities := predictions }

/-- The pairing of labels with probabilities, written index-wise. -/
theorem zip_labels_ofFn {α : Type} (probs : Fin 6 → α) :
    LABELS.zip (List.ofFn probs) = List.ofFn (fun i => (labelName i, probs i)) := by
  simp [LABELS, labelName, List.ofFn_succ]

/-- Membership in the selected labels of `classify_comment`, before the
`['none']` substitution. -/
theorem mem_predicted_labels {α : Type} [LinearOrder α] (probs : Fin 6 → α)
    (threshold : α) (s : String) :
    (s ∈ (((LABELS.zip (List.ofFn probs)).filter
        (fun p => decide (threshold ≤ p.2))).map Prod.fst)) ↔
      ∃ i : Fin 6, labelName i = s ∧ threshold ≤ probs i := by
  rw [zip_labels_ofFn]
  simp only [List.mem_map, List.mem_filter, List.mem_ofFn, Set.mem_range,
    decide_eq_true_eq]
  constructor
  · rintro ⟨⟨a, b⟩, ⟨⟨i, hi⟩, hle⟩, hfst⟩
    cases hi
    exact ⟨i, hfst, hle⟩
  · rintro ⟨i, hs, hle⟩
    exact ⟨(labelName i, probs i), ⟨⟨i, rfl⟩, hle⟩, hs⟩

/-- The selection is empty exactly when every probability is strictly below the
threshold. -/
theorem predicted_labels_eq_nil {α : Type} [LinearOrder α] (probs : Fin 6 → α)
    (threshold : α) :
    ((((LABELS.zip (List.ofFn probs)).filter
        (fun p => decide (threshold ≤ p.2))).map Prod.fst) = []) ↔
      ∀ i : Fin 6, probs i < threshold := by
  rw [zip_labels_ofFn]
  simp only [List.map_eq_nil_iff, List.filter_eq_nil_iff, List.mem_ofFn,
    Set.mem_range, decide_eq_true_eq]
  constructor
  · intro h i
    exact lt_of_not_le (h (labelName i, probs i) ⟨i, rfl⟩)
  · rintro h ⟨a, b⟩ ⟨i, hi⟩
    cases hi
    exact not_le_of_lt (h i)

/-- None of the six fixed label names is the sentinel `"none"`. -/
theorem labelName_ne_none : ∀ i : Fin 6, labelName i ≠ "none" := by decide

/-- The `labels` field of `classify_comment`, with the `let`s unfolded. -/
theorem classify_comment_labels {α : Type} [LinearOrder α] (probs : Fin 6 → α)
    (threshold : α) :
    (classify_comment probs threshold).labels =
      (if (((LABELS.zip (List.ofFn probs)).filter
            (fun p => decide (threshold ≤ p.2))).map Prod.fst) = []
        then ["none"]
        else ((LABELS.zip (List.ofFn probs)).filter
            (fun p => decide (threshold ≤ p.2))).map Prod.fst) := by
  simp only [classify_comment, List.isEmpty_iff]

/-- The `probabilities` field of `classify_comment`, with the `let`s unfolded. -/
theorem classify_comment_probabilities {α : Type} [LinearOrder α] (probs : Fin 6 → α)
    (threshold : α) :
    (classify_comment probs threshold).probabilities = LABELS.zip (List.ofFn probs) :=
  rfl

/-- `classify_comment` never returns an empty label list. -/
theorem classify_comment_labels_ne_nil {α : Type} [LinearOrder α] (probs : Fin 6 → α)
    (threshold : α) : (classify_comment probs threshold).labels ≠ [] := by
  rw [classify_comment_labels]
  split
  · simp
  · assumption

/-- C1: for every probability vector and threshold, `classify_comment` returns
`labels = ["none"]` iff all six probabilities are strictly below the threshold;
otherwise `labels` consists exactly of the label names whose probability is
`≥ threshold`, and the sentinel `"none"` is not among them. -/
theorem classify_labels_spec {α : Type} [LinearOrder α] (probs : Fin 6 → α)
    (threshold : α) :
    ((classify_comment probs threshold).labels = ["none"] ↔
        ∀ i : Fin 6, probs i < threshold) ∧
    ((∃ i : Fin 6, threshold ≤ probs i) →
      (∀ s : String, s ∈ (classify_comment probs threshold).labels ↔
          ∃ i : Fin 6, labelName i = s ∧ threshold ≤ probs i) ∧
        "none" ∉ (classify_comment probs threshold).labels) := by
  have hmem := mem_predicted_labels probs threshold
  have hnil := predicted_labels_eq_nil probs threshold
  rw [classify_comment_labels]
  by_cases h : (((LABELS.zip (List.ofFn probs)).filter
      (fun p => decide (threshold ≤ p.2))).map Prod.fst) = []
  · rw [if_pos h]
    refine ⟨⟨fun _ => hnil.mp h, fun _ => rfl⟩, ?_⟩
    rintro ⟨i, hi⟩
    exact absurd hi (not_le_of_lt (hnil.mp h i))
  · rw [if_neg h]
    constructor
    · constructor
      · intro heq
        have : "none" ∈ (((LABELS.zip (List.ofFn probs)).filter
            (fun p => decide (threshold ≤ p.2))).map Prod.fst) := by
          rw [heq]; exact List.mem_singleton_self "none"
        obtain ⟨i, hi, _⟩ := (hmem "none").mp this
        exact absurd hi (labelName_ne_none i)
      · intro hall
        exact absurd (hnil.mpr hall) h
    · intro _
      refine ⟨hmem, ?_⟩
      intro hn
      obtain ⟨i, hi, _⟩ := (hmem "none").mp hn
      exact absurd hi (labelName_ne_none i)

/-- Witness for C1 at a concrete input: with all six probabilities equal to
`0.1` and the default threshold `0.5`, the returned labels are `["none"]`. -/
theorem classify_labels_spec_witness :
    (classify_comment (fun _ : Fin 6 => (1/10 : ℚ)) (1/2)).labels = ["none"] :=
  (classify_labels_spec (fun _ : Fin 6 => (1/10 : ℚ)) (1/2)).1.mpr
    (fun _ => by norm_num)

/-- `torch.sigmoid` (app.py line 134): the logistic function applied to each
logit produced by the model. -/
noncomputable def sigmoid (x : ℝ) : ℝ := 1 / (1 + Real.exp (-x))

/-- The sigmoid of any real number is nonnegative. -/
theorem sigmoid_nonneg (x : ℝ) : 0 ≤ sigmoid x :=
  div_nonneg zero_le_one
    (le_of_lt (lt_of_lt_of_le Real.zero_lt_one
      (le_add_of_nonneg_right (le_of_lt (Real.exp_pos (-x))))))

/-- The sigmoid of any real number is at most one. -/
theorem sigmoid_le_one (x : ℝ) : sigmoid x ≤ 1 := by
  have hpos : (0 : ℝ) < 1 + Real.exp (-x) :=
    lt_of_lt_of_le Real.zero_lt_one (le_add_of_nonneg_right (le_of_lt (Real.exp_pos (-x))))
  exact (div_le_one hpos).mpr (le_add_of_nonneg_right (le_of_lt (Real.exp_pos (-x))))

/-- The full classification pipeline of app.py lines 131-146: the model yields
one logit per label, sigmoid turns each into a probability, and
`classify_comment` thresholds them. -/
noncomputable def classify_from_logits (logits : Fin 6 → ℝ) (threshold : ℝ) :
    ClassificationResult ℝ :=
  classify_comment (fun i => sigmoid (logits i)) threshold

/-- C2: for every logit vector the model can produce, the `probabilities`
mapping has exactly the six fixed keys, in the fixed order, without duplicates,
and every value lies in `[0,1]`. -/
theorem classify_probabilities_spec (logits : Fin 6 → ℝ) (threshold : ℝ) :
    ((classify_from_logits logits threshold).probabilities.map Prod.fst = LABELS) ∧
    (classify_from_logits logits threshold).probabilities.length = 6 ∧
    ((classify_from_logits logits threshold).probabilities.map Prod.fst).Nodup ∧
    (∀ p ∈ (classify_from_logits logits threshold).probabilities,
      0 ≤ p.2 ∧ p.2 ≤ 1) := by
  have hkeys : (classify_from_logits logits threshold).probabilities.map Prod.fst
      = LABELS := by
    rw [classify_from_logits, classify_comment_probabilities]
    exact List.map_fst_zip _ _ (by simp [LABELS])
  refine ⟨hkeys, ?_, ?_, ?_⟩
  · have := congrArg List.length hkeys
    simpa [LABELS] using this
  · rw [hkeys]
    decide
  · intro p hp
    rw [classify_from_logits, classify_comment_probabilities] at hp
    obtain ⟨-, hsnd⟩ := List.of_mem_zip hp
    obtain ⟨i, hi⟩ := (List.mem_ofFn _ _).mp hsnd
    rw [← hi]
    exact ⟨sigmoid_nonneg _, sigmoid_le_one _⟩

/-- Witness for C2 at a concrete input: the zero logit vector yields exactly
the six fixed keys. -/
theorem classify_probabilities_spec_witness :
    (classify_from_logits (fun _ => 0) (1/2)).probabilities.map Prod.fst = LABELS :=
  (classify_probabilities_spec (fun _ => 0) (1/2)).1

/-- FastAPI `HTTPException(status_code, detail)` as raised by app.py. -/
structure HTTPError where
  status_code : Nat
  detail : String
deriving Repr, DecidableEq

/-- `classify_comment` together with its `try/except` (app.py lines 125-148):
the external model call (tokenization, inference, sigmoid) either yields the six
probabilities or raises with some message `e`, in which case the handler raises
`HTTPException(500, "Classification error: " + str(e))`. -/
def classify_comment_checked {α : Type} [LinearOrder α]
    (modelCall : String → Except String (Fin 6 → α)) (comment : String)
    (threshold : α) : Except HTTPError (ClassificationResult α) :=
  match modelCall comment with
  | .error e => .error ⟨500, "Classification error: " ++ e⟩
  | .ok probs => .ok (classify_comment probs threshold)

/-- C7: if the external model call fails, classification fails with a 500 error
carrying the underlying cause message; if it succeeds, the complete result is
returned; in every case the outcome is either such an error or a complete
result (six probability keys, nonempty labels) — never anything in between. -/
theorem classify_failure_propagation {α : Type} [LinearOrder α]
    (modelCall : String → Except String (Fin 6 → α)) (comment : String)
    (threshold : α) :
    (∀ e, modelCall comment = .error e →
      classify_comment_checked modelCall comment threshold =
        .error ⟨500, "Classification error: " ++ e⟩) ∧
    (∀ probs, modelCall comment = .ok probs →
      classify_comment_checked modelCall comment threshold =
        .ok (classify_comment probs threshold)) ∧
    ((∃ e, modelCall comment = .error e ∧
        classify_comment_checked modelCall comment threshold =
          .error ⟨500, "Classification error: " ++ e⟩) ∨
      (∃ r, classify_comment_checked modelCall comment threshold = .ok r ∧
        r.probabilities.map Prod.fst = LABELS ∧ r.labels ≠ [])) := by
  refine ⟨?_, ?_, ?_⟩
  · intro e he
    simp [classify_comment_checked, he]
  · intro probs hp
    simp [classify_comment_checked, hp]
  · cases hm : modelCall comment with
    | error e =>
      exact Or.inl ⟨e, rfl, by simp [classify_comment_checked, hm]⟩
    | ok probs =>
      refine Or.inr ⟨classify_comment probs threshold,
        by simp [classify_comment_checked, hm], ?_, classify_comment_labels_ne_nil _ _⟩
      rw [classify_comment_probabilities]
      exact List.map_fst_zip _ _ (by simp [LABELS])

/-- One row of the `feedback` table (app.py lines 65-74): an auto-incremented
`id`, the `comment`, the six 0/1 label columns in schema order, and the
`timestamp` (modelled as an abstract clock value). -/
structure FeedbackRow where
  id : Nat
  comment : String
  toxic : Nat
  severe_toxic : Nat
  obscene : Nat
  threat : Nat
  insult : Nat
  identity_hate : Nat
  timestamp : Nat
deriving Repr, DecidableEq

/-- The state of the `feedback` table: its rows in rowid (insertion) order and
the next value of the `AUTOINCREMENT` counter. -/
structure DB where
  rows : List FeedbackRow
  nextId : Nat
deriving Repr, DecidableEq

/-- The freshly created table (`init_db`): no rows; SQLite hands out rowids
starting from 1. -/
def initialDB : DB := ⟨[], 1⟩

/-- The total number of rows, i.e. what `SELECT COUNT(*) FROM feedback`
returns. -/
def countAll (db : DB) : Nat := db.rows.length

/-- `invalid_labels` (app.py lines 182-185): the elements of `expected_labels`
that are neither in `LABELS` nor the sentinel `'none'`. -/
def invalid_labels (expected_labels : List String) : List String :=
  expected_labels.filter (fun label => !(LABELS.contains label) && label != "none")

/-- One entry of `label_values` (app.py lines 191-194):
`1 if label in feedback.expected_labels else 0`. -/
def labelValue (expected_labels : List String) (label : String) : Nat :=
  if expected_labels.contains label then 1 else 0

/-- `label_values` (app.py lines 191-194): the 0/1 flags in `LABELS` order. -/
def label_values (expected_labels : List String) : List Nat :=
  LABELS.map (labelValue expected_labels)

/-- The row inserted by `submit_feedback`'s `INSERT` (app.py lines 198-201):
the columns `(comment, toxic, severe_toxic, obscene, threat, insult,
identity_hate, timestamp)` receive `(feedback.comment, *label_values, now)`, so
each label column gets the `label_values` entry of the same position in
`LABELS`; `id` gets the next `AUTOINCREMENT` value. -/
def submittedRow (db : DB) (comment : String) (expected_labels : List String)
    (now : Nat) : FeedbackRow :=
  { id := db.nextId
    comment := comment
    toxic := labelValue expected_labels "toxic"
    severe_toxic := labelValue expected_labels "severe_toxic"
    obscene := labelValue expected_labels "obscene"
    threat := labelValue expected_labels "threat"
    insult := labelValue expected_labels "insult"
    identity_hate := labelValue expected_labels "identity_hate"
    timestamp := now }

/-- The splat `*label_values` in schema order: position 0 of `label_values`
feeds the `toxic` column, position 1 `severe_toxic`, and so on. -/
theorem label_values_positional (expected_labels : List String) :
    label_values expected_labels =
      [labelValue expected_labels "toxic", labelValue expected_labels "severe_toxic",
        labelValue expected_labels "obscene", labelValue expected_labels "threat",
        labelValue expected_labels "insult", labelValue expected_labels "identity_hate"] :=
  rfl

/-- `submit_feedback` (app.py lines 171-205).  If any expected label is outside
the fixed set and not `'none'`, the handler raises `HTTPException(400,
"Invalid labels: " + ", ".join(invalid_labels))` and writes nothing.  Otherwise
it inserts one row; a SQLite failure (`dbFail = some e`) is caught and
re-raised as `HTTPException(500, "Database error: " + str(e))` with the
transaction rolled back (the `with` block does not commit), so the table is
unchanged.  The result pairs the table state after the call with the response. -/
def submit_feedback (dbFail : Option String) (db : DB) (comment : String)
    (expected_labels : List String) (now : Nat) : DB × Except HTTPError String :=
  if invalid_labels expected_labels ≠ [] then
    (db, .error ⟨400, "Invalid labels: " ++
      String.intercalate ", " (invalid_labels expected_labels)⟩)
  else
    match dbFail with
    | some e => (db, .error ⟨500, "Database error: " ++ e⟩)
    | none =>
        ({ rows := db.rows ++ [submittedRow db comment expected_labels now]
           nextId := db.nextId + 1 },
          .ok "Feedback stored successfully")

/-- `get_feedback_stats` (app.py lines 207-222): `SELECT COUNT(*)`; a SQLite
failure is re-raised as `HTTPException(500, "Database error: " + str(e))`. -/
def get_feedback_stats (dbFail : Option String) (db : DB) :
    DB × Except HTTPError Nat :=
  match dbFail with
  | some e => (db, .error ⟨500, "Database error: " ++ e⟩)
  | none => (db, .ok (countAll db))

/-- `SELECT ... FROM feedback LIMIT ? OFFSET ?` (app.py lines 240-247), with the
bound values passed through unchanged.  Modelled from the underlying store,
which is an external collaborator: on this single ordinary table SQLite returns
rows in rowid (insertion) order; per SQLite's documented LIMIT-clause
semantics, a negative `OFFSET` is treated as zero and a negative `LIMIT` means
"no limit" (all remaining rows). -/
def sqliteLimitOffset (rows : List FeedbackRow) (limit offset : Int) :
    List FeedbackRow :=
  let afterOffset := rows.drop offset.toNat
  if limit < 0 then afterOffset else afterOffset.take limit.toNat

/-- `view_feedback` (app.py lines 224-255): the paginated `SELECT`; a SQLite
failure is re-raised as `HTTPException(500, "Failed to retrieve feedback: " +
str(e))`. -/
def view_feedback (dbFail : Option String) (db : DB) (limit offset : Int) :
    DB × Except HTTPError (List FeedbackRow) :=
  match dbFail with
  | some e => (db, .error ⟨500, "Failed to retrieve feedback: " ++ e⟩)
  | none => (db, .ok (sqliteLimitOffset db.rows limit offset))

/-- `List.contains` on strings agrees with membership. -/
theorem contains_iff_mem (l : List String) (a : String) :
    l.contains a = true ↔ a ∈ l := by
  simp [List.contains_iff_exists_mem_beq, beq_iff_eq]

/-- Characterization of the offending labels collected by `invalid_labels`. -/
theorem mem_invalid_labels (expected_labels : List String) (bad : String) :
    bad ∈ invalid_labels expected_labels ↔
      bad ∈ expected_labels ∧ bad ∉ LABELS ∧ bad ≠ "none" := by
  rw [invalid_labels, List.mem_filter]
  constructor
  · rintro ⟨h1, h2⟩
    rw [Bool.and_eq_true, Bool.not_eq_true', bne_iff_ne] at h2
    refine ⟨h1, ?_, h2.2⟩
    intro hm
    rw [(contains_iff_mem LABELS bad).mpr hm] at h2
    exact absurd h2.1 (by decide)
  · rintro ⟨h1, h2, h3⟩
    refine ⟨h1, ?_⟩
    rw [Bool.and_eq_true, Bool.not_eq_true', bne_iff_ne]
    refine ⟨?_, h3⟩
    cases hc : LABELS.contains bad
    · rfl
    · exact absurd ((contains_iff_mem _ _).mp hc) h2

/-- If every expected label is a fixed name or the sentinel, no label is
collected as invalid. -/
theorem invalid_labels_eq_nil (expected_labels : List String)
    (h : ∀ l ∈ expected_labels, l ∈ LABELS ∨ l = "none") :
    invalid_labels expected_labels = [] := by
  rw [invalid_labels, List.filter_eq_nil_iff]
  intro a ha
  simp only [Bool.and_eq_true, Bool.not_eq_true', bne_iff_ne, ne_eq, not_and]
  intro hc
  rcases h a ha with hl | hn
  · rw [(contains_iff_mem _ _).mpr hl] at hc
    cases hc
  · exact fun hne => hne hn

/-- A stored flag is 1 exactly when the label was among the expected ones. -/
theorem labelValue_eq_one (expected_labels : List String) (label : String) :
    labelValue expected_labels label = 1 ↔ label ∈ expected_labels := by
  rw [labelValue]
  by_cases h : label ∈ expected_labels
  · rw [if_pos ((contains_iff_mem _ _).mpr h)]
    simp [h]
  · have hc : expected_labels.contains label = false := by
      cases hc : expected_labels.contains label
      · rfl
      · exact absurd ((contains_iff_mem _ _).mp hc) h
    rw [hc]
    simp [h]

/-- C3: submitting feedback containing a label that is neither one of the six
fixed names nor `'none'` fails with a 400 error whose detail interpolates the
offending values, and the table (hence `countAll`) is unchanged — whether or
not the database itself would have failed. -/
theorem submit_feedback_invalid_label_rejected (dbFail : Option String) (db : DB)
    (comment bad : String) (expected_labels : List String) (now : Nat)
    (hmem : bad ∈ expected_labels) (hbad : bad ∉ LABELS) (hnone : bad ≠ "none") :
    (submit_feedback dbFail db comment expected_labels now).1 = db ∧
    countAll (submit_feedback dbFail db comment expected_labels now).1 = countAll db ∧
    bad ∈ invalid_labels expected_labels ∧
    (submit_feedback dbFail db comment expected_labels now).2 =
      .error ⟨400, "Invalid labels: " ++
        String.intercalate ", " (invalid_labels expected_labels)⟩ := by
  have hb : bad ∈ invalid_labels expected_labels :=
    (mem_invalid_labels _ _).mpr ⟨hmem, hbad, hnone⟩
  have hne : invalid_labels expected_labels ≠ [] := List.ne_nil_of_mem hb
  unfold submit_feedback
  rw [if_pos hne]
  exact ⟨rfl, rfl, hb, rfl⟩

/-- Witness for C3: submitting the single label `"bogus"` against the empty
table fails with the 400 error and leaves the count unchanged. -/
theorem submit_feedback_invalid_label_rejected_witness :
    (submit_feedback none initialDB "a comment" ["bogus"] 0).1 = initialDB ∧
    countAll (submit_feedback none initialDB "a comment" ["bogus"] 0).1 =
      countAll initialDB ∧
    "bogus" ∈ invalid_labels ["bogus"] ∧
    (submit_feedback none initialDB "a comment" ["bogus"] 0).2 =
      .error ⟨400, "Invalid labels: " ++
        String.intercalate ", " (invalid_labels ["bogus"])⟩ :=
  submit_feedback_invalid_label_rejected none initialDB "a comment" "bogus"
    ["bogus"] 0 (by decide) (by decide) (by decide)

/-- C4: a valid submission appends exactly one new row, whose six label columns
are 1 exactly for the names in `expected_labels`, whose comment is stored
verbatim and whose timestamp is the submission time; listing the table at the
new row's position retrieves exactly that row. -/
theorem submit_feedback_valid_roundtrip (db : DB) (comment : String)
    (expected_labels : List String) (now : Nat)
    (hvalid : ∀ l ∈ expected_labels, l ∈ LABELS ∨ l = "none") :
    submit_feedback none db comment expected_labels now =
      ({ rows := db.rows ++ [submittedRow db comment expected_labels now]
         nextId := db.nextId + 1 }, .ok "Feedback stored successfully") ∧
    (submittedRow db comment expected_labels now).comment = comment ∧
    (submittedRow db comment expected_labels now).timestamp = now ∧
    (submittedRow db comment expected_labels now).id = db.nextId ∧
    (view_feedback none (submit_feedback none db comment expected_labels now).1 1
        (Int.ofNat db.rows.length)).2 =
      .ok [submittedRow db comment expected_labels now] ∧
    ((submittedRow db comment expected_labels now).toxic = 1 ↔
      "toxic" ∈ expected_labels) ∧
    ((submittedRow db comment expected_labels now).severe_toxic = 1 ↔
      "severe_toxic" ∈ expected_labels) ∧
    ((submittedRow db comment expected_labels now).obscene = 1 ↔
      "obscene" ∈ expected_labels) ∧
    ((submittedRow db comment expected_labels now).threat = 1 ↔
      "threat" ∈ expected_labels) ∧
    ((submittedRow db comment expected_labels now).insult = 1 ↔
      "insult" ∈ expected_labels) ∧
    ((submittedRow db comment expected_labels now).identity_hate = 1 ↔
      "identity_hate" ∈ expected_labels) := by
  have hnil : ¬ invalid_labels expected_labels ≠ [] := by
    rw [invalid_labels_eq_nil expected_labels hvalid]
    exact fun h => h rfl
  have hsub : submit_feedback none db comment expected_labels now =
      ({ rows := db.rows ++ [submittedRow db comment expected_labels now]
         nextId := db.nextId + 1 }, .ok "Feedback stored successfully") := by
    unfold submit_feedback
    rw [if_neg hnil]
  refine ⟨hsub, rfl, rfl, rfl, ?_, labelValue_eq_one _ _, labelValue_eq_one _ _,
    labelValue_eq_one _ _, labelValue_eq_one _ _, labelValue_eq_one _ _,
    labelValue_eq_one _ _⟩
  rw [hsub, view_feedback]
  show Except.ok (sqliteLimitOffset
      (db.rows ++ [submittedRow db comment expected_labels now]) 1
      (Int.ofNat db.rows.length)) = _
  rw [sqliteLimitOffset]
  rw [if_neg (by decide)]
  have hoff : (Int.ofNat db.rows.length).toNat = db.rows.length := rfl
  rw [hoff, List.drop_left' rfl]
  rfl

/-- Witness for C4: submitting `["toxic", "none"]` against the empty table
stores flags `toxic = 1` and the rest `0`, and listing retrieves the row. -/
theorem submit_feedback_valid_roundtrip_witness :
    submit_feedback none initialDB "hello" ["toxic", "none"] 42 =
      ({ rows := [submittedRow initialDB "hello" ["toxic", "none"] 42]
         nextId := 2 }, .ok "Feedback stored successfully") ∧
    (submittedRow initialDB "hello" ["toxic", "none"] 42).toxic = 1 ∧
    (submittedRow initialDB "hello" ["toxic", "none"] 42).threat = 0 := by
  have h := submit_feedback_valid_roundtrip initialDB "hello" ["toxic", "none"] 42
    (by decide)
  refine ⟨?_, ?_, by decide⟩
  · have := h.1
    simpa [initialDB] using this
  · exact h.2.2.2.2.2.1.mpr (by decide)

/-- C6: whenever `submit_feedback` succeeds, the row count read immediately
afterwards (`countAll`, i.e. `SELECT COUNT(*)`) is exactly one more than
before the submission. -/
theorem submit_increments_count (dbFail : Option String) (db : DB)
    (comment : String) (expected_labels : List String) (now : Nat) (msg : String)
    (hok : (submit_feedback dbFail db comment expected_labels now).2 = .ok msg) :
    countAll (submit_feedback dbFail db comment expected_labels now).1 =
      countAll db + 1 ∧
    (get_feedback_stats none
        (submit_feedback dbFail db comment expected_labels now).1).2 =
      .ok (countAll db + 1) := by
  by_cases hne : invalid_labels expected_labels ≠ []
  · unfold submit_feedback at hok
    rw [if_pos hne] at hok
    cases hok
  · cases dbFail with
    | some e =>
      unfold submit_feedback at hok
      rw [if_neg hne] at hok
      cases hok
    | none =>
      have hcount : countAll (submit_feedback none db comment expected_labels now).1 =
          countAll db + 1 := by
        unfold submit_feedback
        rw [if_neg hne]
        simp [countAll]
      exact ⟨hcount, by rw [get_feedback_stats, hcount]⟩

/-- Witness for C6: one successful submission against the empty table brings
the count from 0 to 1. -/
theorem submit_increments_count_witness :
    countAll (submit_feedback none initialDB "hello" ["toxic"] 7).1 =
      countAll initialDB + 1 :=
  (submit_increments_count none initialDB "hello" ["toxic"] 7
    "Feedback stored successfully" rfl).1

/-- Submitting preserves the store invariant: rows are kept in strictly
ascending `id` order and every stored `id` is below the `AUTOINCREMENT`
counter. -/
theorem submit_preserves_sorted (dbFail : Option String) (db : DB)
    (comment : String) (expected_labels : List String) (now : Nat)
    (h1 : db.rows.Pairwise (fun a b => a.id < b.id))
    (h2 : ∀ r ∈ db.rows, r.id < db.nextId) :
    (submit_feedback dbFail db comment expected_labels now).1.rows.Pairwise
      (fun a b => a.id < b.id) ∧
    ∀ r ∈ (submit_feedback dbFail db comment expected_labels now).1.rows,
      r.id < (submit_feedback dbFail db comment expected_labels now).1.nextId := by
  by_cases hne : invalid_labels expected_labels ≠ []
  · unfold submit_feedback
    rw [if_pos hne]
    exact ⟨h1, h2⟩
  · cases dbFail with
    | some e =>
      unfold submit_feedback
      rw [if_neg hne]
      exact ⟨h1, h2⟩
    | none =>
      unfold submit_feedback
      rw [if_neg hne]
      constructor
      · rw [List.pairwise_append]
        refine ⟨h1, List.pairwise_singleton _ _, ?_⟩
        intro a ha b hb
        rw [List.mem_singleton] at hb
        rw [hb]
        exact h2 a ha
      · intro r hr
        rw [List.mem_append, List.mem_singleton] at hr
        rcases hr with hr | hr
        · exact Nat.lt_succ_of_lt (h2 r hr)
        · rw [hr]
          exact Nat.lt_succ_self _

/-- C5: with the rows in strictly ascending `id` order (the store invariant)
and nonnegative parameters, `view_feedback` returns exactly the rows obtained
by skipping the first `offset` rows and taking at most `limit` of the rest: the
result's length is `min limit (countAll - offset)`, it is still in ascending
`id` order, and it is an initial segment of what remains after the skip. -/
theorem view_feedback_pagination (db : DB) (limit offset : Int)
    (hsorted : db.rows.Pairwise (fun a b => a.id < b.id))
    (hl : 0 ≤ limit) (_ho : 0 ≤ offset) :
    (view_feedback none db limit offset).2 =
      .ok ((db.rows.drop offset.toNat).take limit.toNat) ∧
    ((db.rows.drop offset.toNat).take limit.toNat).length =
      min limit.toNat (countAll db - offset.toNat) ∧
    ((db.rows.drop offset.toNat).take limit.toNat).Pairwise
      (fun a b => a.id < b.id) ∧
    (db.rows.drop offset.toNat).take limit.toNat <+: db.rows.drop offset.toNat := by
  refine ⟨?_, ?_, ?_, List.take_prefix _ _⟩
  · rw [view_feedback, sqliteLimitOffset]
    rw [if_neg (not_lt_of_le hl)]
  · rw [List.length_take, List.length_drop]
    rfl
  · exact hsorted.sublist ((List.take_sublist _ _).trans (List.drop_sublist _ _))

/-- A concrete five-row store: five valid submissions against the empty table
(ids 1 through 5). -/
def exampleDB : DB :=
  (submit_feedback none
    (submit_feedback none
      (submit_feedback none
        (submit_feedback none
          (submit_feedback none initialDB "c1" ["toxic"] 1).1
          "c2" ["none"] 2).1
        "c3" ["obscene", "insult"] 3).1
      "c4" [] 4).1
    "c5" ["threat", "toxic"] 5).1

/-- Witness for C5: on the five-row store, `limit=2, offset=0` returns exactly
the first two rows (ids 1 and 2) and `limit=2, offset=4` returns exactly one
row (id 5). -/
theorem view_feedback_pagination_witness :
    (view_feedback none exampleDB 2 0).2 = .ok (exampleDB.rows.take 2) ∧
    (view_feedback none exampleDB 2 4).2 = .ok ((exampleDB.rows.drop 4).take 2) ∧
    (exampleDB.rows.take 2).length = 2 ∧
    ((exampleDB.rows.drop 4).take 2).length = 1 ∧
    (exampleDB.rows.take 2).map FeedbackRow.id = [1, 2] ∧
    ((exampleDB.rows.drop 4).take 2).map FeedbackRow.id = [5] := by
  have h1 := (view_feedback_pagination exampleDB 2 0 (by decide) (by decide)
    (by decide)).1
  have h2 := (view_feedback_pagination exampleDB 2 4 (by decide) (by decide)
    (by decide)).1
  exact ⟨h1, h2, by decide, by decide, by decide, by decide⟩

/-- C8: the error taxonomy.  A validation failure (an unknown label name) is a
client error: status 400 with the offending values echoed in the detail.  A
model failure or a database failure is a server error: status 500 with the
underlying cause message attached (`"Classification error: ..."`,
`"Database error: ..."`, `"Failed to retrieve feedback: ..."`).  Each failing
call returns exactly that error — nothing is swallowed or retried. -/
theorem error_taxonomy (db : DB) (comment : String) (expected_labels : List String)
    (now : Nat) (e : String) (limit offset : Int)
    (modelCall : String → Except String (Fin 6 → ℚ)) (threshold : ℚ) :
    (invalid_labels expected_labels ≠ [] →
      ∀ dbFail, (submit_feedback dbFail db comment expected_labels now).2 =
        .error ⟨400, "Invalid labels: " ++
          String.intercalate ", " (invalid_labels expected_labels)⟩) ∧
    (invalid_labels expected_labels = [] →
      (submit_feedback (some e) db comment expected_labels now).2 =
        .error ⟨500, "Database error: " ++ e⟩) ∧
    (modelCall comment = .error e →
      classify_comment_checked modelCall comment threshold =
        .error ⟨500, "Classification error: " ++ e⟩) ∧
    ((get_feedback_stats (some e) db).2 = .error ⟨500, "Database error: " ++ e⟩) ∧
    ((view_feedback (some e) db limit offset).2 =
      .error ⟨500, "Failed to retrieve feedback: " ++ e⟩) := by
  refine ⟨?_, ?_, ?_, rfl, rfl⟩
  · intro hne dbFail
    unfold submit_feedback
    rw [if_pos hne]
  · intro hnil
    unfold submit_feedback
    rw [if_neg (by rw [hnil]; exact fun h => h rfl)]
  · intro hm
    rw [classify_comment_checked, hm]

/-- Witness for C8: a database failure while counting surfaces as the 500
error with the cause attached. -/
theorem error_taxonomy_witness :
    (get_feedback_stats (some "disk full") initialDB).2 =
      .error ⟨500, "Database error: disk full"⟩ :=
  (error_taxonomy initialDB "" [] 0 "disk full" 0 0
    (fun _ => .ok fun _ => 0) (1/2)).2.2.2.1

/-- C9: feedback entries are immutable.  The read operations return the store
unchanged; `submit_feedback` at most appends — the old rows are a prefix of the
new rows (hence every previously stored row is untouched, as the
position-by-position agreement states), and at most one row is added.  No
operation updates or deletes an existing row. -/
theorem feedback_immutability (dbFail : Option String) (db : DB) (comment : String)
    (expected_labels : List String) (now : Nat) (limit offset : Int) :
    (get_feedback_stats dbFail db).1 = db ∧
    (view_feedback dbFail db limit offset).1 = db ∧
    db.rows <+: (submit_feedback dbFail db comment expected_labels now).1.rows ∧
    (submit_feedback dbFail db comment expected_labels now).1.rows.length ≤
      db.rows.length + 1 ∧
    (∀ n : Nat, n < db.rows.length →
      (submit_feedback dbFail db comment expected_labels now).1.rows[n]? =
        db.rows[n]?) := by
  refine ⟨?_, ?_, ?_, ?_, ?_⟩
  · cases dbFail <;> rfl
  · cases dbFail <;> rfl
  · by_cases hne : invalid_labels expected_labels ≠ []
    · unfold submit_feedback
      rw [if_pos hne]
    · cases dbFail with
      | some e =>
        unfold submit_feedback
        rw [if_neg hne]
      | none =>
        unfold submit_feedback
        rw [if_neg hne]
        exact List.prefix_append _ _
  · by_cases hne : invalid_labels expected_labels ≠ []
    · unfold submit_feedback
      rw [if_pos hne]
      exact Nat.le_succ _
    · cases dbFail with
      | some e =>
        unfold submit_feedback
        rw [if_neg hne]
        exact Nat.le_succ _
      | none =>
        unfold submit_feedback
        rw [if_neg hne]
        simp
  · intro n hn
    by_cases hne : invalid_labels expected_labels ≠ []
    · unfold submit_feedback
      rw [if_pos hne]
    · cases dbFail with
      | some e =>
        unfold submit_feedback
        rw [if_neg hne]
      | none =>
        unfold submit_feedback
        rw [if_neg hne]
        exact List.getElem?_append_left hn

/-- Witness for C9: reading the statistics of the five-row store leaves it
unchanged, and a submission against it keeps the old rows as a prefix. -/
theorem feedback_immutability_witness :
    (get_feedback_stats none exampleDB).1 = exampleDB ∧
    exampleDB.rows <+: (submit_feedback none exampleDB "c6" ["insult"] 6).1.rows :=
  ⟨(feedback_immutability none exampleDB "c6" ["insult"] 6 100 0).1,
    (feedback_immutability none exampleDB "c6" ["insult"] 6 100 0).2.2.1⟩

/-- C10: `view_feedback` passes `limit` and `offset` to the store unvalidated
and unclamped, so (by the store's semantics) a negative `limit` returns all
rows remaining after the offset instead of failing or returning nothing, and a
negative `offset` behaves exactly as offset 0. -/
theorem view_feedback_negative_params (db : DB) (limit offset : Int) :
    (limit < 0 → (view_feedback none db limit offset).2 =
      .ok (db.rows.drop offset.toNat)) ∧
    (offset < 0 → (view_feedback none db limit offset).2 =
      (view_feedback none db limit 0).2) ∧
    (offset < 0 → 0 ≤ limit → (view_feedback none db limit offset).2 =
      .ok (db.rows.take limit.toNat)) := by
  refine ⟨?_, ?_, ?_⟩
  · intro hneg
    rw [view_feedback, sqliteLimitOffset]
    rw [if_pos hneg]
  · intro hneg
    have hz : offset.toNat = 0 := Int.toNat_eq_zero.mpr (le_of_lt hneg)
    rw [view_feedback, view_feedback, sqliteLimitOffset, sqliteLimitOffset, hz]
    rfl
  · intro hneg hl
    have hz : offset.toNat = 0 := Int.toNat_eq_zero.mpr (le_of_lt hneg)
    rw [view_feedback, sqliteLimitOffset, hz]
    rw [if_neg (not_lt_of_le hl)]
    rw [List.drop_zero]

/-- Witness for C10: on the five-row store, `limit = -1` returns all five rows
and `offset = -3` behaves as offset 0. -/
theorem view_feedback_negative_params_witness :
    (view_feedback none exampleDB (-1) 0).2 = .ok exampleDB.rows ∧
    (view_feedback none exampleDB 2 (-3)).2 = (view_feedback none exampleDB 2 0).2 := by
  have h1 := (view_feedback_negative_params exampleDB (-1) 0).1 (by decide)
  have h2 := (view_feedback_negative_params exampleDB 2 (-3)).2.1 (by decide)
  exact ⟨by simpa using h1, h2⟩
